import Mathlib

/-
  Verification of the per-device simulation tick of sim_soia_hivemq.py.

  The per-device loop body of `run` (source lines 98-196) is embedded as a
  pure function `tick` over an explicit `DeviceState`, with the three random
  draws of a tick passed in as explicit inputs (`Draws`).  Python floats are
  modelled as rationals; Python's banker's rounding (`round`) is modelled by
  `pyRound` / `pyRoundTo`.
-/

namespace SimSoia

/-- The active-pump selector: the source's `st.active` field holds "A" or "B"
(source line 54). -/
inductive Pump where
  | A : Pump
  | B : Pump
deriving DecidableEq

/-- The other pump: `"B" if st.active == "A" else "A"` (source line 144). -/
def Pump.other : Pump → Pump
  | Pump.A => Pump.B
  | Pump.B => Pump.A

/-- The engineering part of `Config` (source lines 22-45); the MQTT connection
fields are external collaborators and are not modelled. -/
structure Config where
  period_s : ℚ
  q_span_m3min : ℚ
  C_mgm3 : ℚ
  rho_g_cm3 : ℚ
  E_A_cm3 : ℚ
  E_B_cm3 : ℚ
  tank_liters : ℚ
  max_spm : ℚ
  di_fail_prob : ℚ
  mismatch_noise_pct : ℚ

/-- The per-device mutable state (source lines 51-62); `phase` is unused by
the loop and omitted. -/
structure DeviceState where
  active : Pump
  no_detect_count : ℕ
  pulses_total_A : ℕ
  pulses_total_B : ℕ
  tank_l : ℚ
  flow_volts : ℚ
  level_volts : ℚ

/-- Initial device state (source lines 51-61): pump A active, counters zero,
tank full, `flow_volts = 2.8 + uniform(-0.2, 0.2)` passed as `d0`,
`level_volts = 4.6`. -/
def DeviceState.init (cfg : Config) (d0 : ℚ) : DeviceState where
  active := Pump.A
  no_detect_count := 0
  pulses_total_A := 0
  pulses_total_B := 0
  tank_l := cfg.tank_liters
  flow_volts := 2.8 + d0
  level_volts := 4.6

/-- The three random draws one tick consumes: `random.uniform(-0.06, 0.06)`
(line 102), `random.uniform(-pct, pct)` (line 117), `random.random()`
(line 127). -/
structure Draws where
  dflow : ℚ
  noise : ℚ
  di_draw : ℚ

/-- `clamp(v, a, b) = max(a, min(b, v))` (source line 75). -/
def clamp (v a b : ℚ) : ℚ := max a (min b v)

/-- `map_flow_volts_to_q_m3min` (source lines 77-79): 1-5 V to 0..q_span. -/
def map_flow_volts_to_q_m3min (volts : ℚ) (cfg : Config) : ℚ :=
  max 0 (((volts - 1) / 4) * cfg.q_span_m3min)

/-- Python 3 `round` on an exact value: round half to even. -/
def pyRound (x : ℚ) : ℤ :=
  let n := Int.floor x
  let frac := x - n
  if frac < 1/2 then n
  else if 1/2 < frac then n + 1
  else if n % 2 = 0 then n else n + 1

/-- Python 3 `round(x, k)`: round to `k` decimal places, half to even. -/
def pyRoundTo (x : ℚ) (k : ℕ) : ℚ :=
  (pyRound (x * (10 : ℚ) ^ k) : ℚ) / (10 : ℚ) ^ k

/-- Tank depletion (source lines 181-182):
`consumed_cm3 = pulses * E; tank = max(0.0, tank - consumed_cm3 / 1000.0)`. -/
def consume (tank_volume_l : ℚ) (pulses : ℕ) (displacement_cm3 : ℚ) : ℚ :=
  max 0 (tank_volume_l - (pulses : ℚ) * displacement_cm3 / 1000)

/-- One pulse record as published on `tele/pulse/doserA` / `doserB`
(source lines 156-168). -/
structure PulseRecord where
  pulses_total : ℕ
  pulses_period : ℕ
  rate_per_min : ℚ
  embolada_cm3 : ℚ

/-- The QA record published on `tele/qa/dosing_check` (source lines 172-178). -/
structure QARecord where
  spm_teo : ℚ
  spm_real : ℚ
  mismatch_pct : ℚ
  under_dosing_due_to_limit : Bool

/-- Everything one device tick produces: the successor state plus the
observable quantities of that tick. -/
structure TickResult where
  state : DeviceState
  Q_m3min : ℚ
  spm_teo : ℚ
  spm_real_pre : ℚ
  spm_real : ℚ
  under_limit : Bool
  pulses_this_period : ℕ
  inj_fail : Bool
  no_detect_after_update : ℕ
  rotated : Bool
  reason : Option String
  doserA : PulseRecord
  doserB : PulseRecord
  qa : QARecord
  level_pct : ℚ

/-- One device tick: the body of the per-device loop in `run`
(source lines 101-196), in source order: flow signal update (102-104),
dosing from the currently active pump's displacement (113-124), injection
sensor (127), no-detection counter (136-139), rotation (141-147), pulse
totals (150-153), pulse records (156-168), QA record (171-178), tank
consumption and level signal (181-184). -/
def tick (cfg : Config) (st : DeviceState) (d : Draws) : TickResult :=
  let flow_volts := clamp (st.flow_volts + d.dflow) 1 5
  let Q_m3min := map_flow_volts_to_q_m3min flow_volts cfg
  let E := if st.active = Pump.A then cfg.E_A_cm3 else cfg.E_B_cm3
  let spm_teo := if E ≤ 0 then 0 else (Q_m3min * cfg.C_mgm3) / (1000 * cfg.rho_g_cm3 * E)
  let spm_real_pre := spm_teo * (1 + d.noise)
  let under_limit : Bool := decide (cfg.max_spm < spm_real_pre)
  let spm_real := if cfg.max_spm < spm_real_pre then cfg.max_spm else spm_real_pre
  let pulses_int : ℤ := pyRound (spm_real * (cfg.period_s / 60))
  let pulses : ℕ := (max 0 pulses_int).toNat
  let inj_fail : Bool := decide (d.di_draw < cfg.di_fail_prob)
  let n1 : ℕ := if inj_fail = true ∨ pulses = 0 then st.no_detect_count + pulses else 0
  let rotated : Bool := decide (5 ≤ n1)
  let active2 := if 5 ≤ n1 then st.active.other else st.active
  let n2 : ℕ := if 5 ≤ n1 then 0 else n1
  let reason : Option String :=
    if 5 ≤ n1 then some "sensor_no_detection_after_5_pulses" else none
  let totalA := if active2 = Pump.A then st.pulses_total_A + pulses else st.pulses_total_A
  let totalB := if active2 = Pump.B then st.pulses_total_B + pulses else st.pulses_total_B
  let mismatch_pct := if spm_teo = 0 then 0 else pyRoundTo (|spm_real - spm_teo| / spm_teo * 100) 1
  let tank2 := consume st.tank_l pulses E
  let level_pct := 100 * (if 0 < cfg.tank_liters then tank2 / cfg.tank_liters else 0)
  let level_volts := 1 + 4 * clamp level_pct 0 100 / 100
  { state :=
      { active := active2
        no_detect_count := n2
        pulses_total_A := totalA
        pulses_total_B := totalB
        tank_l := tank2
        flow_volts := flow_volts
        level_volts := level_volts }
    Q_m3min := Q_m3min
    spm_teo := spm_teo
    spm_real_pre := spm_real_pre
    spm_real := spm_real
    under_limit := under_limit
    pulses_this_period := pulses
    inj_fail := inj_fail
    no_detect_after_update := n1
    rotated := rotated
    reason := reason
    doserA :=
      { pulses_total := totalA
        pulses_period := if active2 = Pump.A then pulses else 0
        rate_per_min := pyRoundTo (if active2 = Pump.A then spm_real else 0) 3
        embolada_cm3 := cfg.E_A_cm3 }
    doserB :=
      { pulses_total := totalB
        pulses_period := if active2 = Pump.B then pulses else 0
        rate_per_min := pyRoundTo (if active2 = Pump.B then spm_real else 0) 3
        embolada_cm3 := cfg.E_B_cm3 }
    qa :=
      { spm_teo := pyRoundTo spm_teo 3
        spm_real := pyRoundTo spm_real 3
        mismatch_pct := mismatch_pct
        under_dosing_due_to_limit := under_limit }
    level_pct := level_pct }

/-- A run of several ticks: the successive device states produced by the
outer `while True` loop for one device, one `Draws` per tick. -/
def runTicks (cfg : Config) (st : DeviceState) : List Draws → DeviceState
  | [] => st
  | d :: ds => runTicks cfg (tick cfg st d).state ds

/-- A concrete configuration with distinct pump displacements
(E_A = 1 cm3, E_B = 2 cm3) and a long period so that one tick issues
five pulses. -/
def cfg1 : Config where
  period_s := 300
  q_span_m3min := 1
  C_mgm3 := 1000
  rho_g_cm3 := 1
  E_A_cm3 := 1
  E_B_cm3 := 2
  tank_liters := 200
  max_spm := 45
  di_fail_prob := 1
  mismatch_noise_pct := 3/100

/-- A concrete device state: pump A active, counter zero, 1 L in the tank,
flow signal at full scale. -/
def st1 : DeviceState where
  active := Pump.A
  no_detect_count := 0
  pulses_total_A := 0
  pulses_total_B := 0
  tank_l := 1
  flow_volts := 5
  level_volts := 1

/-- Concrete draws: no flow perturbation, no dosing noise, and a sensor draw
below `di_fail_prob = 1`, so the sensor reports FAIL. -/
def d1 : Draws where
  dflow := 0
  noise := 0
  di_draw := 0

/-- The configuration of the spec's theoretical-rate scenario:
displacement 0.25 cm3, concentration 250 mg/m3, density 0.815 g/cm3. -/
def cfg7 : Config where
  period_s := 30
  q_span_m3min := 30
  C_mgm3 := 250
  rho_g_cm3 := 0.815
  E_A_cm3 := 0.25
  E_B_cm3 := 0.25
  tank_liters := 200
  max_spm := 45
  di_fail_prob := 0.02
  mismatch_noise_pct := 0.03

/-- A device state whose flow signal (3 V) maps to 15 m3/min under `cfg7`. -/
def st7 : DeviceState where
  active := Pump.A
  no_detect_count := 0
  pulses_total_A := 0
  pulses_total_B := 0
  tank_l := 200
  flow_volts := 3
  level_volts := 4.6

/-- Concrete draws with no perturbation, no noise, and a sensor draw above
`di_fail_prob`, so the sensor reports OK. -/
def d7 : Draws where
  dflow := 0
  noise := 0
  di_draw := 0.5

/-! ## Helper lemmas -/

theorem Pump.eq_A_or_eq_B (p : Pump) : p = Pump.A ∨ p = Pump.B := by
  cases p
  · exact Or.inl rfl
  · exact Or.inr rfl

theorem Pump.other_ne (p : Pump) : p.other ≠ p := by
  cases p <;> simp [Pump.other]

theorem pyRound_intCast (n : ℤ) : pyRound (n : ℚ) = n := by
  simp [pyRound]

theorem pyRoundTo_zero (k : ℕ) : pyRoundTo 0 k = 0 := by
  simp [pyRoundTo, pyRound]

theorem clamp_le {v a b : ℚ} (hab : a ≤ b) : clamp v a b ≤ b := by
  simp only [clamp]
  exact max_le hab (min_le_left _ _)

theorem le_clamp (v a b : ℚ) : a ≤ clamp v a b :=
  le_max_left _ _

/-- The displacement the tick uses for dosing and for tank consumption is the
one of the pump that is active when the tick starts (source line 113). -/
def activeDisplacement (cfg : Config) (st : DeviceState) : ℚ :=
  if st.active = Pump.A then cfg.E_A_cm3 else cfg.E_B_cm3

theorem tick_flow_volts (cfg : Config) (st : DeviceState) (d : Draws) :
    (tick cfg st d).state.flow_volts = clamp (st.flow_volts + d.dflow) 1 5 := rfl

theorem tick_level_volts (cfg : Config) (st : DeviceState) (d : Draws) :
    (tick cfg st d).state.level_volts =
      1 + 4 * clamp ((tick cfg st d).level_pct) 0 100 / 100 := rfl

theorem tick_flow_bounds (cfg : Config) (st : DeviceState) (d : Draws) :
    1 ≤ (tick cfg st d).state.flow_volts ∧ (tick cfg st d).state.flow_volts ≤ 5 := by
  rw [tick_flow_volts]
  exact ⟨le_clamp _ _ _, clamp_le (by norm_num)⟩

theorem tick_level_bounds (cfg : Config) (st : DeviceState) (d : Draws) :
    1 ≤ (tick cfg st d).state.level_volts ∧ (tick cfg st d).state.level_volts ≤ 5 := by
  rw [tick_level_volts]
  have h1 : (0 : ℚ) ≤ clamp ((tick cfg st d).level_pct) 0 100 := le_clamp _ _ _
  have h2 : clamp ((tick cfg st d).level_pct) 0 100 ≤ 100 := clamp_le (by norm_num)
  constructor <;> nlinarith

theorem tick_no_detect_le (cfg : Config) (st : DeviceState) (d : Draws) :
    (tick cfg st d).state.no_detect_count ≤ 4 := by
  show (if 5 ≤ (tick cfg st d).no_detect_after_update then 0
        else (tick cfg st d).no_detect_after_update) ≤ 4
  split
  · omega
  · omega

theorem tick_active_displacement_nonneg (cfg : Config) (st : DeviceState)
    (hA : 0 ≤ cfg.E_A_cm3) (hB : 0 ≤ cfg.E_B_cm3) : 0 ≤ activeDisplacement cfg st := by
  unfold activeDisplacement
  split <;> assumption

theorem tick_tank_eq (cfg : Config) (st : DeviceState) (d : Draws) :
    (tick cfg st d).state.tank_l =
      consume st.tank_l (tick cfg st d).pulses_this_period (activeDisplacement cfg st) := rfl

theorem consume_nonneg (tank : ℚ) (pulses : ℕ) (E : ℚ) : 0 ≤ consume tank pulses E :=
  le_max_left _ _

theorem consume_le (tank : ℚ) (pulses : ℕ) (E : ℚ) (cap : ℚ)
    (hE : 0 ≤ E) (htank : tank ≤ cap) (hcap : 0 ≤ cap) : consume tank pulses E ≤ cap := by
  unfold consume
  have hc : (0 : ℚ) ≤ (pulses : ℚ) * E / 1000 := by positivity
  have : tank - (pulses : ℚ) * E / 1000 ≤ cap := by linarith
  exact max_le hcap this

theorem tick_tank_bounds (cfg : Config) (st : DeviceState) (d : Draws)
    (hA : 0 ≤ cfg.E_A_cm3) (hB : 0 ≤ cfg.E_B_cm3)
    (htank : st.tank_l ≤ cfg.tank_liters) (hcap : 0 ≤ cfg.tank_liters) :
    0 ≤ (tick cfg st d).state.tank_l ∧ (tick cfg st d).state.tank_l ≤ cfg.tank_liters := by
  rw [tick_tank_eq]
  exact ⟨consume_nonneg _ _ _,
    consume_le _ _ _ _ (tick_active_displacement_nonneg cfg st hA hB) htank hcap⟩

theorem tick_total_A_le (cfg : Config) (st : DeviceState) (d : Draws) :
    st.pulses_total_A ≤ (tick cfg st d).state.pulses_total_A := by
  show st.pulses_total_A ≤
    (if (tick cfg st d).state.active = Pump.A
     then st.pulses_total_A + (tick cfg st d).pulses_this_period else st.pulses_total_A)
  split
  · exact Nat.le_add_right _ _
  · exact Nat.le_refl _

theorem tick_total_B_le (cfg : Config) (st : DeviceState) (d : Draws) :
    st.pulses_total_B ≤ (tick cfg st d).state.pulses_total_B := by
  show st.pulses_total_B ≤
    (if (tick cfg st d).state.active = Pump.B
     then st.pulses_total_B + (tick cfg st d).pulses_this_period else st.pulses_total_B)
  split
  · exact Nat.le_add_right _ _
  · exact Nat.le_refl _

theorem runTicks_total_A_le (cfg : Config) (ds : List Draws) (st : DeviceState) :
    st.pulses_total_A ≤ (runTicks cfg st ds).pulses_total_A := by
  induction ds generalizing st with
  | nil => exact Nat.le_refl _
  | cons d ds ih => exact Nat.le_trans (tick_total_A_le cfg st d) (ih _)

theorem runTicks_total_B_le (cfg : Config) (ds : List Draws) (st : DeviceState) :
    st.pulses_total_B ≤ (runTicks cfg st ds).pulses_total_B := by
  induction ds generalizing st with
  | nil => exact Nat.le_refl _
  | cons d ds ih => exact Nat.le_trans (tick_total_B_le cfg st d) (ih _)

theorem runTicks_no_detect_le (cfg : Config) (ds : List Draws) (st : DeviceState)
    (h : st.no_detect_count ≤ 4) : (runTicks cfg st ds).no_detect_count ≤ 4 := by
  induction ds generalizing st with
  | nil => exact h
  | cons d ds ih => exact ih _ (tick_no_detect_le cfg st d)

theorem runTicks_flow_bounds (cfg : Config) (ds : List Draws) (st : DeviceState)
    (h1 : 1 ≤ st.flow_volts) (h5 : st.flow_volts ≤ 5)
    (l1 : 1 ≤ st.level_volts) (l5 : st.level_volts ≤ 5) :
    (1 ≤ (runTicks cfg st ds).flow_volts ∧ (runTicks cfg st ds).flow_volts ≤ 5) ∧
    (1 ≤ (runTicks cfg st ds).level_volts ∧ (runTicks cfg st ds).level_volts ≤ 5) := by
  induction ds generalizing st with
  | nil => exact ⟨⟨h1, h5⟩, ⟨l1, l5⟩⟩
  | cons d ds ih =>
    exact ih _ (tick_flow_bounds cfg st d).1 (tick_flow_bounds cfg st d).2
      (tick_level_bounds cfg st d).1 (tick_level_bounds cfg st d).2

theorem runTicks_tank_bounds (cfg : Config) (ds : List Draws) (st : DeviceState)
    (hA : 0 ≤ cfg.E_A_cm3) (hB : 0 ≤ cfg.E_B_cm3)
    (h0 : 0 ≤ st.tank_l) (hcap : st.tank_l ≤ cfg.tank_liters) :
    0 ≤ (runTicks cfg st ds).tank_l ∧ (runTicks cfg st ds).tank_l ≤ cfg.tank_liters := by
  induction ds generalizing st with
  | nil => exact ⟨h0, hcap⟩
  | cons d ds ih =>
    have hc : 0 ≤ cfg.tank_liters := le_trans h0 hcap
    have h := tick_tank_bounds cfg st d hA hB hcap hc
    exact ih _ h.1 h.2

/-! ## Claims -/

/-- C1, counterexample: on the rotation tick of `cfg1`/`st1`/`d1` (five
unconfirmed pulses fail pump A over to pump B), the tank consumption is
computed with the displacement of the pre-rotation pump A (E_A = 1 cm3, so
the tank drops 5 cm3 to 199/200 L), not with the displacement of the pump
that is active after rotation (E_B = 2 cm3, which would give 99/100 L). -/
theorem C1_counterexample :
    (tick cfg1 st1 d1).rotated = true ∧
    (tick cfg1 st1 d1).pulses_this_period = 5 ∧
    (tick cfg1 st1 d1).state.active = Pump.B ∧
    (tick cfg1 st1 d1).state.tank_l = 199/200 ∧
    (tick cfg1 st1 d1).state.tank_l ≠ max 0 (st1.tank_l - 5 * cfg1.E_B_cm3 / 1000) := by
  norm_num [tick, cfg1, st1, d1, clamp, map_flow_volts_to_q_m3min, consume, Pump.other,
    pyRound, pyRoundTo, max_def, show ((5:ℤ)).toNat = 5 from rfl]

/-- C1, amended: on every tick — rotation or not — the tank-volume
consumption is computed with the displacement of the pump that was active
BEFORE rotation was resolved (the pump that produced the tick's pulses):
`E` is read at source line 113 from the pre-rotation selector and reused at
line 181 after the rotation of lines 143-147. -/
theorem C1_amended (cfg : Config) (st : DeviceState) (d : Draws) :
    (tick cfg st d).state.tank_l =
      max 0 (st.tank_l - ((tick cfg st d).pulses_this_period : ℚ) *
        (if st.active = Pump.A then cfg.E_A_cm3 else cfg.E_B_cm3) / 1000) := rfl

/-- C2: after every tick the active-pump selector holds exactly one of A, B
(and the two differ); the tick flips the selector to the other pump, resets
the counter to 0 and emits the rotation reason exactly when the updated
no-detection counter reached 5, and otherwise leaves selector and counter
untouched. -/
theorem C2_theorem (cfg : Config) (st : DeviceState) (d : Draws) :
    ((tick cfg st d).state.active = Pump.A ∨ (tick cfg st d).state.active = Pump.B) ∧
    Pump.other st.active ≠ st.active ∧
    (tick cfg st d).state.active =
      (if 5 ≤ (tick cfg st d).no_detect_after_update then Pump.other st.active else st.active) ∧
    (tick cfg st d).state.no_detect_count =
      (if 5 ≤ (tick cfg st d).no_detect_after_update then 0
       else (tick cfg st d).no_detect_after_update) ∧
    (tick cfg st d).rotated = decide (5 ≤ (tick cfg st d).no_detect_after_update) ∧
    (tick cfg st d).reason =
      (if 5 ≤ (tick cfg st d).no_detect_after_update
       then some "sensor_no_detection_after_5_pulses" else none) :=
  ⟨Pump.eq_A_or_eq_B _, Pump.other_ne _, rfl, rfl, rfl, rfl⟩

/-- C2 witness: on the concrete rotation tick of `cfg1`/`st1`/`d1`, the
updated counter reaches 5, so the claim instantiates to an actual flip from
pump A to pump B with counter reset and tagged reason. -/
theorem C2_witness :
    (tick cfg1 st1 d1).state.active = Pump.B ∧
    (tick cfg1 st1 d1).state.no_detect_count = 0 ∧
    (tick cfg1 st1 d1).reason = some "sensor_no_detection_after_5_pulses" := by
  have h := C2_theorem cfg1 st1 d1
  have h5 : 5 ≤ (tick cfg1 st1 d1).no_detect_after_update := by
    norm_num [tick, cfg1, st1, d1, clamp, map_flow_volts_to_q_m3min, pyRound, max_def,
      show ((5:ℤ)).toNat = 5 from rfl]
  refine ⟨?_, ?_, ?_⟩
  · rw [h.2.2.1, if_pos h5]; rfl
  · rw [h.2.2.2.1, if_pos h5]
  · rw [h.2.2.2.2.2, if_pos h5]

/-- C3: the no-detection counter update of every tick: if the sensor draw
reports FAIL or zero pulses were issued this tick, the counter increases by
exactly this tick's pulse count (possibly zero, never decreasing, never
resetting in this branch); if the sensor reports OK and at least one pulse
was issued, the counter becomes exactly 0. -/
theorem C3_theorem (cfg : Config) (st : DeviceState) (d : Draws) :
    (tick cfg st d).no_detect_after_update =
      (if (tick cfg st d).inj_fail = true ∨ (tick cfg st d).pulses_this_period = 0
       then st.no_detect_count + (tick cfg st d).pulses_this_period else 0) := rfl

/-- C4: the analog signals stay in the 1-5 V transducer range: in the initial
state (whose flow draw is bounded by 0.2 V) and after every tick of every
run, for arbitrary perturbation, noise and sensor draws, `flow_volts` and
`level_volts` lie in [1, 5]. -/
theorem C4_theorem (cfg : Config) (st : DeviceState) (d : Draws) (d0 : ℚ)
    (ds : List Draws) (h : |d0| ≤ 0.2) :
    (1 ≤ (DeviceState.init cfg d0).flow_volts ∧ (DeviceState.init cfg d0).flow_volts ≤ 5) ∧
    (1 ≤ (DeviceState.init cfg d0).level_volts ∧ (DeviceState.init cfg d0).level_volts ≤ 5) ∧
    (1 ≤ (tick cfg st d).state.flow_volts ∧ (tick cfg st d).state.flow_volts ≤ 5) ∧
    (1 ≤ (tick cfg st d).state.level_volts ∧ (tick cfg st d).state.level_volts ≤ 5) ∧
    (1 ≤ (runTicks cfg (DeviceState.init cfg d0) ds).flow_volts ∧
      (runTicks cfg (DeviceState.init cfg d0) ds).flow_volts ≤ 5) ∧
    (1 ≤ (runTicks cfg (DeviceState.init cfg d0) ds).level_volts ∧
      (runTicks cfg (DeviceState.init cfg d0) ds).level_volts ≤ 5) := by
  have habs := abs_le.mp h
  have hf : 1 ≤ (DeviceState.init cfg d0).flow_volts ∧ (DeviceState.init cfg d0).flow_volts ≤ 5 := by
    constructor
    · show (1 : ℚ) ≤ 2.8 + d0
      norm_num
      linarith [habs.1]
    · show (2.8 : ℚ) + d0 ≤ 5
      norm_num
      linarith [habs.2]
  have hl : 1 ≤ (DeviceState.init cfg d0).level_volts ∧ (DeviceState.init cfg d0).level_volts ≤ 5 := by
    constructor
    · show (1 : ℚ) ≤ 4.6
      norm_num
    · show (4.6 : ℚ) ≤ 5
      norm_num
  have hr := runTicks_flow_bounds cfg ds (DeviceState.init cfg d0) hf.1 hf.2 hl.1 hl.2
  exact ⟨hf, hl, tick_flow_bounds cfg st d, tick_level_bounds cfg st d, hr.1, hr.2⟩

/-- C4 witness: the claim instantiated at the concrete configuration `cfg1`,
state `st1`, draws `d1`, initial flow draw 0 and the one-tick run. -/
theorem C4_witness :
    |(0 : ℚ)| ≤ 0.2 ∧
    (1 ≤ (DeviceState.init cfg1 0).flow_volts ∧ (DeviceState.init cfg1 0).flow_volts ≤ 5) ∧
    (1 ≤ (tick cfg1 st1 d1).state.flow_volts ∧ (tick cfg1 st1 d1).state.flow_volts ≤ 5) ∧
    (1 ≤ (runTicks cfg1 (DeviceState.init cfg1 0) [d1]).level_volts ∧
      (runTicks cfg1 (DeviceState.init cfg1 0) [d1]).level_volts ≤ 5) := by
  have h := C4_theorem cfg1 st1 d1 0 [d1] (by norm_num)
  exact ⟨by norm_num, h.1, h.2.2.1, h.2.2.2.2.2⟩

/-- C5: the tick's tank update equals
`max(0, tank_volume_l - pulses * displacement_cm3 / 1000)` for the
displacement the tick doses with; under nonnegative configured displacements
the tank volume stays in [0, tank_capacity], an empty tank stays empty under
continued consumption, and the spec scenario (1 L, 5000 pulses of 0.25 cm3)
clamps to exactly 0 rather than going negative. -/
theorem C5_theorem (cfg : Config) (st : DeviceState) (d : Draws) (ds : List Draws)
    (hA : 0 ≤ cfg.E_A_cm3) (hB : 0 ≤ cfg.E_B_cm3)
    (h0 : 0 ≤ st.tank_l) (hcap : st.tank_l ≤ cfg.tank_liters) :
    (tick cfg st d).state.tank_l =
      max 0 (st.tank_l -
        ((tick cfg st d).pulses_this_period : ℚ) * activeDisplacement cfg st / 1000) ∧
    (0 ≤ (tick cfg st d).state.tank_l ∧ (tick cfg st d).state.tank_l ≤ cfg.tank_liters) ∧
    (0 ≤ (runTicks cfg st ds).tank_l ∧ (runTicks cfg st ds).tank_l ≤ cfg.tank_liters) ∧
    (st.tank_l = 0 → (tick cfg st d).state.tank_l = 0) ∧
    consume 1 5000 0.25 = 0 := by
  refine ⟨rfl, tick_tank_bounds cfg st d hA hB hcap (le_trans h0 hcap),
    runTicks_tank_bounds cfg ds st hA hB h0 hcap, ?_, ?_⟩
  · intro hz
    rw [tick_tank_eq cfg st d]
    have hE := tick_active_displacement_nonneg cfg st hA hB
    have hc : (0 : ℚ) ≤ ((tick cfg st d).pulses_this_period : ℚ) *
        activeDisplacement cfg st / 1000 := by positivity
    unfold consume
    rw [hz]
    rw [max_eq_left]
    linarith
  · unfold consume
    rw [max_eq_left]
    norm_num

/-- C5 witness: the claim instantiated at `cfg1`/`st1`/`d1` and the one-tick
run, with all side conditions discharged numerically. -/
theorem C5_witness :
    (0 ≤ cfg1.E_A_cm3 ∧ 0 ≤ cfg1.E_B_cm3 ∧ 0 ≤ st1.tank_l ∧ st1.tank_l ≤ cfg1.tank_liters) ∧
    (0 ≤ (tick cfg1 st1 d1).state.tank_l ∧
      (tick cfg1 st1 d1).state.tank_l ≤ cfg1.tank_liters) ∧
    consume 1 5000 0.25 = 0 := by
  have h := C5_theorem cfg1 st1 d1 [d1] (by norm_num [cfg1]) (by norm_num [cfg1])
    (by norm_num [st1]) (by norm_num [st1, cfg1])
  exact ⟨⟨by norm_num [cfg1], by norm_num [cfg1], by norm_num [st1], by norm_num [st1, cfg1]⟩,
    h.2.1, h.2.2.2.2⟩

/-- C6: the dosing model flags `under_limit` exactly when the pre-clamp
actual rate (the theoretical rate scaled by the noise factor) exceeds the
mechanical ceiling `max_spm`, and the post-clamp actual rate never exceeds
`max_spm`. -/
theorem C6_theorem (cfg : Config) (st : DeviceState) (d : Draws) :
    ((tick cfg st d).under_limit = true ↔ cfg.max_spm < (tick cfg st d).spm_real_pre) ∧
    (tick cfg st d).spm_real ≤ cfg.max_spm := by
  constructor
  · show decide (cfg.max_spm < (tick cfg st d).spm_real_pre) = true ↔ _
    exact decide_eq_true_iff
  · show (if cfg.max_spm < (tick cfg st d).spm_real_pre
          then cfg.max_spm else (tick cfg st d).spm_real_pre) ≤ cfg.max_spm
    split
    · exact le_refl _
    · exact le_of_not_lt (by assumption)

/-- C6 witness: on the concrete tick of `cfg1`/`st1`/`d1` the pre-clamp rate
(1 spm) does not exceed the ceiling (45 spm), so `under_limit` is false and
the post-clamp rate is below the ceiling. -/
theorem C6_witness :
    (tick cfg1 st1 d1).under_limit = false ∧ (tick cfg1 st1 d1).spm_real ≤ cfg1.max_spm := by
  have h := C6_theorem cfg1 st1 d1
  refine ⟨?_, h.2⟩
  rw [← Bool.not_eq_true, h.1]
  norm_num [tick, cfg1, st1, d1, clamp, map_flow_volts_to_q_m3min]

/-- C7: the theoretical dosing rate is
`(flow_rate * concentration) / (1000 * density * displacement)` strokes per
minute whenever the active displacement is positive, and is a defined 0 (not
an error) when the displacement is zero or degenerate; in the spec scenario
(0.25 cm3, 250 mg/m3, 0.815 g/cm3, 15 m3/min) the rate is 3000/163, i.e.
18.4 strokes/min up to less than 0.01. -/
theorem C7_theorem (cfg : Config) (st : DeviceState) (d : Draws) :
    (tick cfg st d).spm_teo =
      (if activeDisplacement cfg st ≤ 0 then 0
       else ((tick cfg st d).Q_m3min * cfg.C_mgm3) /
         (1000 * cfg.rho_g_cm3 * activeDisplacement cfg st)) ∧
    (tick cfg7 st7 d7).Q_m3min = 15 ∧
    (tick cfg7 st7 d7).spm_teo = 3000 / 163 ∧
    |(tick cfg7 st7 d7).spm_teo - 18.4| < 1 / 100 := by
  have hQ : (tick cfg7 st7 d7).Q_m3min = 15 := by
    norm_num [tick, cfg7, st7, d7, clamp, map_flow_volts_to_q_m3min, max_def, min_def]
  have hteo : (tick cfg7 st7 d7).spm_teo = 3000 / 163 := by
    norm_num [tick, cfg7, st7, d7, clamp, map_flow_volts_to_q_m3min, max_def, min_def]
  refine ⟨rfl, hQ, hteo, ?_⟩
  rw [hteo, abs_lt]
  constructor <;> norm_num

/-- C8: the published QA mismatch percentage is 0 when the theoretical rate
is 0, and otherwise `100 * |actual - theoretical| / theoretical` rounded to
one decimal place, where `actual` is the post-clamp actual rate. -/
theorem C8_theorem (cfg : Config) (st : DeviceState) (d : Draws) :
    (tick cfg st d).qa.mismatch_pct =
      (if (tick cfg st d).spm_teo = 0 then 0
       else pyRoundTo (100 * |(tick cfg st d).spm_real - (tick cfg st d).spm_teo| /
         (tick cfg st d).spm_teo) 1) := by
  show (if (tick cfg st d).spm_teo = 0 then 0
        else pyRoundTo (|(tick cfg st d).spm_real - (tick cfg st d).spm_teo| /
          (tick cfg st d).spm_teo * 100) 1) = _
  split
  · rfl
  · congr 1
    ring

/-- C9: pump lifetime pulse totals never decrease, neither over one tick nor
over any run of ticks; on every tick the total of the pump that is inactive
after rotation is resolved is unchanged, the whole pulse count goes to the
post-rotation active pump, and the inactive pump's always-emitted pulse
record reports 0 pulses and 0 rate for the tick. -/
theorem C9_theorem (cfg : Config) (st : DeviceState) (d : Draws) (ds : List Draws) :
    st.pulses_total_A ≤ (tick cfg st d).state.pulses_total_A ∧
    st.pulses_total_B ≤ (tick cfg st d).state.pulses_total_B ∧
    st.pulses_total_A ≤ (runTicks cfg st ds).pulses_total_A ∧
    st.pulses_total_B ≤ (runTicks cfg st ds).pulses_total_B ∧
    (tick cfg st d).state.pulses_total_A =
      (if (tick cfg st d).state.active = Pump.A
       then st.pulses_total_A + (tick cfg st d).pulses_this_period else st.pulses_total_A) ∧
    (tick cfg st d).state.pulses_total_B =
      (if (tick cfg st d).state.active = Pump.B
       then st.pulses_total_B + (tick cfg st d).pulses_this_period else st.pulses_total_B) ∧
    (tick cfg st d).doserA.pulses_period =
      (if (tick cfg st d).state.active = Pump.A then (tick cfg st d).pulses_this_period else 0) ∧
    (tick cfg st d).doserB.pulses_period =
      (if (tick cfg st d).state.active = Pump.B then (tick cfg st d).pulses_this_period else 0) ∧
    (tick cfg st d).doserA.rate_per_min =
      (if (tick cfg st d).state.active = Pump.A
       then pyRoundTo (tick cfg st d).spm_real 3 else 0) ∧
    (tick cfg st d).doserB.rate_per_min =
      (if (tick cfg st d).state.active = Pump.B
       then pyRoundTo (tick cfg st d).spm_real 3 else 0) := by
  refine ⟨tick_total_A_le cfg st d, tick_total_B_le cfg st d,
    runTicks_total_A_le cfg ds st, runTicks_total_B_le cfg ds st, rfl, rfl, rfl, rfl, ?_, ?_⟩
  · show pyRoundTo (if (tick cfg st d).state.active = Pump.A
        then (tick cfg st d).spm_real else 0) 3 = _
    split
    · rfl
    · exact pyRoundTo_zero 3
  · show pyRoundTo (if (tick cfg st d).state.active = Pump.B
        then (tick cfg st d).spm_real else 0) 3 = _
    split
    · rfl
    · exact pyRoundTo_zero 3

/-- C10: the no-detection counter is 0 in the initial state, and every state
observed between ticks carries a counter in [0, 4]: every tick that pushes
the counter to 5 or beyond resets it to 0 in the same tick, so a value of 5
or more never survives a tick. -/
theorem C10_theorem (cfg : Config) (st : DeviceState) (d : Draws) (d0 : ℚ)
    (ds : List Draws) :
    (DeviceState.init cfg d0).no_detect_count = 0 ∧
    (tick cfg st d).state.no_detect_count ≤ 4 ∧
    (runTicks cfg (DeviceState.init cfg d0) ds).no_detect_count ≤ 4 :=
  ⟨rfl, tick_no_detect_le cfg st d,
    runTicks_no_detect_le cfg ds _ (Nat.zero_le 4)⟩

end SimSoia
